import Mathlib

/-!
# Verification of gundi-core data contracts

Shallow embedding of the `gundi-core` schema package (pydantic v1 models in
`gundi_core/schemas/v2.py` and the event envelopes in `gundi_core/events/`),
together with proofs of the spec's testable properties.

Modelling conventions:
* pydantic construction / `parse_obj` is modelled as an explicit `decode`
  function from a typed wire record (`WireField α` distinguishes an absent
  key, an explicit JSON `null`, and a present value, because pydantic v1
  treats absent and `null` differently for fields with non-`None` defaults).
* `.dict()` serialization is modelled as an explicit `dict...` function that
  emits every field (pydantic's `dict()` includes defaults and `None`s).
* Python `datetime` values are modelled structurally with an optional fixed
  UTC-offset (`tz : Option Int`, minutes); `timezone.utc` is offset `0`.
* Python floats appearing in validated fields are modelled as `Rat`
  (the claims only exercise exactly representable values).
* `Union[UUID, str]` values are modelled by `GundiId`; Python `uuid.UUID`'s
  string parsing (removal of `urn:`/`uuid:` markers, surrounding braces
  stripped, hyphens removed anywhere, then `int(x, 16)` with its
  whitespace/sign/prefix/underscore tolerance) and its canonical lowercase
  hyphenated rendering are modelled over the stored 128-bit integer.
-/

namespace Gundi

/-- Python `datetime`: wall-clock fields plus an optional fixed UTC offset in
minutes (`tz = none` models a naive datetime, `tz = some 0` models
`timezone.utc`). -/
structure DateTimeV where
  year : Nat
  month : Nat
  day : Nat
  hour : Nat
  minute : Nat
  second : Nat
  microsecond : Nat
  tz : Option Int
deriving DecidableEq, Repr

/-- The `clean_recorded_at` validator shared verbatim by `Observation` and
`Event` (`schemas/v2.py`): `if not val.tzinfo: val = val.replace(tzinfo=timezone.utc)`. -/
def cleanRecordedAt (val : DateTimeV) : DateTimeV :=
  if val.tz = none then { val with tz := some 0 } else val

/-- `StreamPrefixEnum` from `schemas/v2.py`. -/
inductive StreamPrefixEnum where
  | observation
  | observation_update
  | event
  | event_update
  | attachment
deriving DecidableEq, Repr

/-- The string value of each `StreamPrefixEnum` member. -/
def StreamPrefixEnum.value : StreamPrefixEnum → String
  | .observation => "obv"
  | .observation_update => "obvu"
  | .event => "ev"
  | .event_update => "evu"
  | .attachment => "att"

/-- The concrete entity classes that can appear in the stream-type registry. -/
inductive EntityModel where
  | observation
  | event
  | attachment
deriving DecidableEq, Repr

/-- `models_by_stream_type` from `schemas/v2.py`: a dict keyed by the (string
valued) enum members, holding exactly the three entries written in the source.
Lookup by discriminator string models a consumer indexing the dict with the
wire value; a missing key is `none` (a Python `KeyError`). -/
def models_by_stream_type (s : String) : Option EntityModel :=
  List.lookup s
    [ (StreamPrefixEnum.observation.value, EntityModel.observation),
      (StreamPrefixEnum.event.value, EntityModel.event),
      (StreamPrefixEnum.attachment.value, EntityModel.attachment) ]

/-- A JSON field position in a pydantic `parse_obj` input: the key may be
absent, explicitly `null`, or carry a value. -/
inductive WireField (α : Type) where
  | absent
  | null
  | val (a : α)
deriving DecidableEq, Repr

/-! ## UUID-or-string identifiers (`Union[UUID, str]`)

CPython's `uuid.UUID(hex)` constructor runs
`hex = hex.replace('urn:', '').replace('uuid:', '')`, then
`hex = hex.strip('{}').replace('-', '')`, requires `len(hex) == 32`, and
parses the remainder with `int(hex, 16)` — which itself tolerates
surrounding whitespace, one leading sign, an optional `0x`/`0X` prefix, and
single underscores between digits; the resulting integer must lie in
`[0, 2^128)`.  `str(uuid)` renders the canonical lowercase hyphenated
8-4-4-4-12 form of that integer.  A UUID value is modelled by the 128-bit
integer the `UUID` object stores. -/

/-- The lowercase hex character for a digit value (`0`–`15`). -/
def hexChar (n : Nat) : Char := Char.ofNat (if n < 10 then 48 + n else 87 + n)

/-- Whether a character is a hex digit (`0-9`, `a-f`, `A-F`). -/
def isHexChar (c : Char) : Bool :=
  (48 ≤ c.toNat && c.toNat ≤ 57) || (97 ≤ c.toNat && c.toNat ≤ 102) ||
    (65 ≤ c.toNat && c.toNat ≤ 70)

/-- The digit value of a hex character (case-insensitive). -/
def hexVal (c : Char) : Nat :=
  if 48 ≤ c.toNat && c.toNat ≤ 57 then c.toNat - 48
  else if 97 ≤ c.toNat && c.toNat ≤ 102 then c.toNat - 87
  else if 65 ≤ c.toNat && c.toNat ≤ 70 then c.toNat - 55
  else 0

/-- A UUID value: the 128-bit integer a `uuid.UUID` object stores. -/
abbrev UUIDv := Nat

/-- Whether a character is one of the braces `uuid.UUID` strips from the ends. -/
def isBrace (c : Char) : Bool := c == '{' || c == '}'

/-- Python `str.strip("{}")`: remove braces from both ends. -/
def stripBraces (l : List Char) : List Char :=
  ((l.dropWhile isBrace).reverse.dropWhile isBrace).reverse

/-- Scanner for Python `str.replace(pat, '')` with pattern `p :: pt`: scan
left to right; on a match emit nothing and skip the matched characters
(`skip` counts pattern characters still to be consumed); otherwise keep the
head. -/
def removePatternAux (p : Char) (pt : List Char) : Nat → List Char → List Char
  | _, [] => []
  | skip + 1, _ :: rest => removePatternAux p pt skip rest
  | 0, c :: rest =>
    if (p :: pt).isPrefixOf (c :: rest) then removePatternAux p pt pt.length rest
    else c :: removePatternAux p pt 0 rest

/-- Python `str.replace(pat, '')` for a non-empty pattern `p :: pt`: remove
every occurrence of the pattern, scanning left to right without overlap. -/
def removePattern (p : Char) (pt : List Char) (l : List Char) : List Char :=
  removePatternAux p pt 0 l

/-- The ASCII whitespace `int(x, 16)` tolerates around the digits (space,
tab, newline, carriage return, vertical tab, form feed). -/
def isPyWhitespace (c : Char) : Bool :=
  c == ' ' || c == '\t' || c == '\n' || c == '\r' || c.toNat == 11 || c.toNat == 12

/-- Strip surrounding whitespace, as `int(x, 16)` does. -/
def stripWs (l : List Char) : List Char :=
  ((l.dropWhile isPyWhitespace).reverse.dropWhile isPyWhitespace).reverse

/-- The digit run of `int(x, 16)` after its first digit: hex digits, a single
underscore allowed only between digits.  The Bool flag records whether the
previous character was an underscore (an underscore may not follow another
underscore or end the run). -/
def hexAcc : Nat → Bool → List Char → Option Nat
  | acc, afterUnd, [] => if afterUnd then none else some acc
  | acc, afterUnd, c :: rest =>
    if isHexChar c then hexAcc (acc * 16 + hexVal c) false rest
    else if c == '_' && !afterUnd then hexAcc acc true rest
    else none

/-- The mandatory first digit of the run. -/
def startHexDigits : List Char → Option Nat
  | c :: rest => if isHexChar c then hexAcc (hexVal c) false rest else none
  | [] => none

/-- Python `int(x, 16)`: strip surrounding whitespace, one optional sign, an
optional `0x`/`0X` prefix (an underscore may directly follow it), then at
least one hex digit with single underscores between digits. -/
def intOfHexPy (l : List Char) : Option Int :=
  let l1 := stripWs l
  let sgn : Int :=
    match l1 with
    | c :: _ => if c == '-' then -1 else 1
    | [] => 1
  let l2 : List Char :=
    match l1 with
    | c :: rest => if c == '+' || c == '-' then rest else l1
    | [] => l1
  let l3 : List Char :=
    match l2 with
    | z :: x :: rest =>
      if z == '0' && (x == 'x' || x == 'X') then
        match rest with
        | u :: rest2 => if u == '_' then rest2 else rest
        | [] => rest
      else l2
    | _ => l2
  (startHexDigits l3).map (fun v => sgn * v)

/-- The integer value of a big-endian base-16 digit list. -/
def natOfDigits (ds : List Nat) : Nat := ds.foldl (fun a x => a * 16 + x) 0

/-- The 32 base-16 digits of a 128-bit integer, most significant first. -/
def digitsOfNat32 (n : Nat) : List Nat :=
  (List.range 32).map (fun i => n / 16 ^ (31 - i) % 16)

/-- The character preprocessing of `uuid.UUID(s)`: remove every `urn:` and
`uuid:` marker, strip surrounding braces, drop every hyphen. -/
def uuidBytesOf (l : List Char) : List Char :=
  (stripBraces (removePattern 'u' ['u', 'i', 'd', ':']
    (removePattern 'u' ['r', 'n', ':'] l))).filter (fun c => !(c == '-'))

/-- `uuid.UUID(s)` on a string: preprocess as above, require exactly 32
remaining characters, and parse them with `int(x, 16)`; the value must lie in
`[0, 2^128)`.  `none` models the `ValueError` raised otherwise. -/
def parseUUIDString (s : String) : Option UUIDv :=
  if (uuidBytesOf s.data).length == 32 then
    match intOfHexPy (uuidBytesOf s.data) with
    | some v => if 0 ≤ v ∧ v < 2 ^ 128 then some v.toNat else none
    | none => none
  else none

/-- Insert the canonical 8-4-4-4-12 hyphens. -/
def hyphenate (l : List Char) : List Char :=
  l.take 8 ++ ['-'] ++ (l.drop 8).take 4 ++ ['-'] ++ (l.drop 12).take 4 ++
    ['-'] ++ (l.drop 16).take 4 ++ ['-'] ++ l.drop 20

/-- `str(uuid)`: the canonical lowercase hyphenated rendering of the value's
32 hex digits. -/
def canonUUID (u : UUIDv) : String := ⟨hyphenate ((digitsOfNat32 u).map hexChar)⟩

/-- A validated `Union[UUID, str]` value: either a parsed `uuid.UUID` or a
plain string that did not parse as one. -/
inductive GundiId where
  | uuid (u : UUIDv)
  | str (s : String)
deriving DecidableEq, Repr

/-- pydantic v1 validation of `Union[UUID, str]` on a string input: it tries
`UUID(v)` first and falls back to the string itself. -/
def parseGundiIdStr (s : String) : GundiId :=
  match parseUUIDString s with
  | some u => .uuid u
  | none => .str s

/-- `.json()`-level rendering of an identifier: `str(uuid)` for a UUID,
the string itself otherwise. -/
def encodeGundiIdText : GundiId → String
  | .uuid u => canonUUID u
  | .str s => s

/-- Textual round trip of a `Union[UUID, str]` field: decode a JSON string,
then serialize it back to a JSON string. -/
def roundtripIdText (s : String) : String := encodeGundiIdText (parseGundiIdStr s)

/-- A `Union[UUID, str]` value as it appears in a `.dict()` output /
`parse_obj` input: either a `uuid.UUID` object or a string. -/
inductive GundiIdWire where
  | uuidW (u : UUIDv)
  | strW (s : String)
deriving DecidableEq, Repr

/-- pydantic v1 validation of a `Union[UUID, str]` wire value: a `UUID`
instance passes through; a string is parsed (`UUID` first, then `str`). -/
def decodeGundiIdWire : GundiIdWire → GundiId
  | .uuidW u => .uuid u
  | .strW s => parseGundiIdStr s

/-- `.dict()` rendering of a validated identifier (objects kept as-is). -/
def encodeGundiIdWire : GundiId → GundiIdWire
  | .uuid u => .uuidW u
  | .str s => .strW s

/-! ## Field decoders shared by the models -/

/-- `Union[UUID, str] = Field(None)` / `Optional[Union[UUID, str]]`: absent
and `null` both give `None`; a value is validated. -/
def decodeOptId : WireField GundiIdWire → Option GundiId
  | .absent => none
  | .null => none
  | .val w => some (decodeGundiIdWire w)

/-- `.dict()` rendering of an optional identifier (`None` serializes as
`null`). -/
def encodeOptId : Option GundiId → WireField GundiIdWire
  | none => .null
  | some g => .val (encodeGundiIdWire g)

/-- `Optional[X] = None` (or bare `Optional[X]`): absent and `null` give
`None`. -/
def decodeOpt {α : Type} : WireField α → Option α
  | .absent => none
  | .null => none
  | .val a => some a

/-- `Optional[X] = Field(dflt)` with a non-`None` default: an absent key takes
the default, an explicit `null` stays `None`. -/
def decodeOptDefault {α : Type} (dflt : α) : WireField α → Option α
  | .absent => some dflt
  | .null => none
  | .val a => some a

/-- `.dict()` rendering of any optional field value. -/
def optW {α : Type} : Option α → WireField α
  | none => .null
  | some a => .val a

/-- A non-optional `str` field with a default (e.g. `owner: str = "na"`):
absent takes the default, `null` is a type error. -/
def reqStrField (name dflt : String) : WireField String → Except (List String) String
  | .absent => .ok dflt
  | .null => .error [name]
  | .val s => .ok s

/-- A required `str` field (e.g. `file_path: str`). -/
def reqStr (name : String) : WireField String → Except (List String) String
  | .absent => .error [name]
  | .null => .error [name]
  | .val s => .ok s

/-- A `str = Field(fixed, const=True)` field: absent takes the fixed default;
a supplied value must equal it, anything else is a validation error. -/
def constStr (fixed name : String) : WireField String → Except (List String) String
  | .absent => .ok fixed
  | .null => .error [name]
  | .val s => if s = fixed then .ok s else .error [name]

/-- Free-form `Dict[str, Any]` payloads (`additional`, `annotations`,
`event_details`, `geometry`, `changes`): an ordered string-keyed map whose
values are carried opaquely (rendered as strings) and never interpreted. -/
abbrev FreeMap := List (String × String)

/-! ## Location (`schemas/v2.py`, lines 18–23) -/

/-- A validated `Location` instance.  `lat`/`lon`/`alt` are `float` fields in
the source, modelled as `Rat`. -/
structure Location where
  lat : Rat
  lon : Rat
  alt : Rat
  hdop : Option Int
  vdop : Option Int
deriving DecidableEq, Repr

/-- Untyped input for `Location.parse_obj`. -/
structure LocationWire where
  lat : WireField Rat
  lon : WireField Rat
  alt : WireField Rat
  hdop : WireField Int
  vdop : WireField Int
deriving DecidableEq, Repr

/-- A required numeric field with inclusive `ge`/`le` bounds, as in
`Field(..., ge=lo, le=hi)`; an error names the field. -/
def boundField (name : String) (lo hi : Rat) : WireField Rat → Except (List String) Rat
  | .absent => .error [name]
  | .null => .error [name]
  | .val x => if lo ≤ x ∧ x ≤ hi then .ok x else .error [name]

/-- The `alt: float = Field(0.0, ...)` field: default `0.0`, no `ge`/`le`
constraint in the source, `null` rejected (not `Optional`). -/
def altField : WireField Rat → Except (List String) Rat
  | .absent => .ok 0
  | .null => .error ["alt"]
  | .val x => .ok x

/-- The field names cited by a failed field check (pydantic aggregates them). -/
def errsOf {α : Type} : Except (List String) α → List String
  | .ok _ => []
  | .error es => es

/-- `Location` construction/validation: `lat ∈ [-90, 90]`, `lon ∈ [-180, 360]`
(inclusive, per `Field(..., ge=..., le=...)`), `alt` defaulted but otherwise
unconstrained, `hdop`/`vdop` optional.  All violated fields are reported. -/
def validateLocation (w : LocationWire) : Except (List String) Location :=
  let la := boundField "lat" (-90) 90 w.lat
  let lo := boundField "lon" (-180) 360 w.lon
  let al := altField w.alt
  match la, lo, al with
  | .ok a, .ok b, .ok c => .ok ⟨a, b, c, decodeOpt w.hdop, decodeOpt w.vdop⟩
  | _, _, _ => .error (errsOf la ++ errsOf lo ++ errsOf al)

/-- `.dict()` of a `Location` (every field emitted; `None`s as `null`). -/
def dictLocation (l : Location) : LocationWire :=
  ⟨.val l.lat, .val l.lon, .val l.alt, optW l.hdop, optW l.vdop⟩

/-- A required `location: Location` field (Observation): nested input is
validated; its field errors are prefixed with the parent field name. -/
def reqLocation : WireField LocationWire → Except (List String) Location
  | .absent => .error ["location"]
  | .null => .error ["location"]
  | .val w =>
    match validateLocation w with
    | .ok l => .ok l
    | .error es => .error (es.map (fun e => "location." ++ e))

/-- An `Optional[Location]` field (Event): absent/`null` give `None`, a value
is validated like the required case. -/
def optLocation : WireField LocationWire → Except (List String) (Option Location)
  | .absent => .ok none
  | .null => .ok none
  | .val w =>
    match validateLocation w with
    | .ok l => .ok (some l)
    | .error es => .error (es.map (fun e => "location." ++ e))

/-- `.dict()` rendering of an optional `Location`. -/
def encodeOptLocation : Option Location → WireField LocationWire
  | none => .null
  | some l => .val (dictLocation l)

/-- `Observation.recorded_at: datetime = Field(...)`: required, `null` is a
type error, and the `clean_recorded_at` validator runs on the value. -/
def obsRecordedAt : WireField DateTimeV → Except (List String) DateTimeV
  | .absent => .error ["recorded_at"]
  | .null => .error ["recorded_at"]
  | .val dt => .ok (cleanRecordedAt dt)

/-- `Event.recorded_at: Optional[datetime] = Field(...)`: required (`...`);
an explicit `null` passes the `Optional` type check but then the
`clean_recorded_at` validator evaluates `None.tzinfo`, raising
`AttributeError` — no instance results, modelled as an error. -/
def eventRecordedAt : WireField DateTimeV → Except (List String) (Option DateTimeV)
  | .absent => .error ["recorded_at"]
  | .null => .error ["recorded_at (AttributeError: NoneType has no tzinfo)"]
  | .val dt => .ok (some (cleanRecordedAt dt))

/-! ## Observation (`schemas/v2.py`, lines 50–112) -/

/-- A validated `Observation` instance (fields of `GundiBaseModel` inlined,
in source declaration order). -/
structure Observation where
  gundi_id : Option GundiId
  related_to : Option GundiId
  owner : String
  data_provider_id : Option GundiId
  annotations : Option FreeMap
  source_id : Option GundiId
  external_source_id : Option String
  source_name : Option String
  type : Option String
  subject_type : Option String
  recorded_at : DateTimeV
  location : Location
  additional : Option FreeMap
  observation_type : String
deriving DecidableEq, Repr

/-- Untyped input for `Observation.parse_obj`. -/
structure ObservationWire where
  gundi_id : WireField GundiIdWire
  related_to : WireField GundiIdWire
  owner : WireField String
  data_provider_id : WireField GundiIdWire
  annotations : WireField FreeMap
  source_id : WireField GundiIdWire
  external_source_id : WireField String
  source_name : WireField String
  type : WireField String
  subject_type : WireField String
  recorded_at : WireField DateTimeV
  location : WireField LocationWire
  additional : WireField FreeMap
  observation_type : WireField String
deriving DecidableEq, Repr

/-- `Observation` construction/validation.  Defaults: `owner = "na"`,
`external_source_id = "None"`, `type = "tracking-device"`,
`observation_type = "obv"` (`const=True`); `recorded_at` and `location`
required; `recorded_at` passes through `clean_recorded_at`. -/
def decodeObservation (w : ObservationWire) : Except (List String) Observation := do
  let owner ← reqStrField "owner" "na" w.owner
  let recAt ← obsRecordedAt w.recorded_at
  let loc ← reqLocation w.location
  let ot ← constStr "obv" "observation_type" w.observation_type
  pure { gundi_id := decodeOptId w.gundi_id,
         related_to := decodeOptId w.related_to,
         owner := owner,
         data_provider_id := decodeOptId w.data_provider_id,
         annotations := decodeOpt w.annotations,
         source_id := decodeOptId w.source_id,
         external_source_id := decodeOptDefault "None" w.external_source_id,
         source_name := decodeOpt w.source_name,
         type := decodeOptDefault "tracking-device" w.type,
         subject_type := decodeOpt w.subject_type,
         recorded_at := recAt,
         location := loc,
         additional := decodeOpt w.additional,
         observation_type := ot }

/-- `.dict()` of an `Observation`: every field emitted, `None`s as `null`,
nested models as nested dicts, `UUID`/`datetime` objects kept. -/
def dictObservation (e : Observation) : ObservationWire :=
  { gundi_id := encodeOptId e.gundi_id,
    related_to := encodeOptId e.related_to,
    owner := .val e.owner,
    data_provider_id := encodeOptId e.data_provider_id,
    annotations := optW e.annotations,
    source_id := encodeOptId e.source_id,
    external_source_id := optW e.external_source_id,
    source_name := optW e.source_name,
    type := optW e.type,
    subject_type := optW e.subject_type,
    recorded_at := .val e.recorded_at,
    location := .val (dictLocation e.location),
    additional := optW e.additional,
    observation_type := .val e.observation_type }

/-! ## Event (`schemas/v2.py`, lines 115–159) -/

/-- A validated `Event` instance. -/
structure Event where
  gundi_id : Option GundiId
  related_to : Option GundiId
  owner : String
  data_provider_id : Option GundiId
  annotations : Option FreeMap
  source_id : Option GundiId
  external_source_id : Option String
  recorded_at : Option DateTimeV
  location : Option Location
  title : Option String
  event_type : Option String
  event_details : Option FreeMap
  geometry : Option FreeMap
  observation_type : String
deriving DecidableEq, Repr

/-- Untyped input for `Event.parse_obj`. -/
structure EventWire where
  gundi_id : WireField GundiIdWire
  related_to : WireField GundiIdWire
  owner : WireField String
  data_provider_id : WireField GundiIdWire
  annotations : WireField FreeMap
  source_id : WireField GundiIdWire
  external_source_id : WireField String
  recorded_at : WireField DateTimeV
  location : WireField LocationWire
  title : WireField String
  event_type : WireField String
  event_details : WireField FreeMap
  geometry : WireField FreeMap
  observation_type : WireField String
deriving DecidableEq, Repr

/-- `Event` construction/validation.  Defaults: `owner = "na"`,
`external_source_id = "none"`, `observation_type = "ev"` (`const=True`);
`recorded_at` required, with the validator crashing on an explicit `null`;
`location` optional. -/
def decodeEvent (w : EventWire) : Except (List String) Event := do
  let owner ← reqStrField "owner" "na" w.owner
  let recAt ← eventRecordedAt w.recorded_at
  let loc ← optLocation w.location
  let ot ← constStr "ev" "observation_type" w.observation_type
  pure { gundi_id := decodeOptId w.gundi_id,
         related_to := decodeOptId w.related_to,
         owner := owner,
         data_provider_id := decodeOptId w.data_provider_id,
         annotations := decodeOpt w.annotations,
         source_id := decodeOptId w.source_id,
         external_source_id := decodeOptDefault "none" w.external_source_id,
         recorded_at := recAt,
         location := loc,
         title := decodeOpt w.title,
         event_type := decodeOpt w.event_type,
         event_details := decodeOpt w.event_details,
         geometry := decodeOpt w.geometry,
         observation_type := ot }

/-- `.dict()` of an `Event`. -/
def dictEvent (e : Event) : EventWire :=
  { gundi_id := encodeOptId e.gundi_id,
    related_to := encodeOptId e.related_to,
    owner := .val e.owner,
    data_provider_id := encodeOptId e.data_provider_id,
    annotations := optW e.annotations,
    source_id := encodeOptId e.source_id,
    external_source_id := optW e.external_source_id,
    recorded_at := optW e.recorded_at,
    location := encodeOptLocation e.location,
    title := optW e.title,
    event_type := optW e.event_type,
    event_details := optW e.event_details,
    geometry := optW e.geometry,
    observation_type := .val e.observation_type }

/-! ## EventUpdate (`schemas/v2.py`, lines 162–178) -/

/-- A validated `EventUpdate` instance. -/
structure EventUpdate where
  gundi_id : Option GundiId
  related_to : Option GundiId
  owner : String
  data_provider_id : Option GundiId
  annotations : Option FreeMap
  source_id : Option GundiId
  external_source_id : Option String
  changes : Option FreeMap
  observation_type : String
deriving DecidableEq, Repr

/-- Untyped input for `EventUpdate.parse_obj`. -/
structure EventUpdateWire where
  gundi_id : WireField GundiIdWire
  related_to : WireField GundiIdWire
  owner : WireField String
  data_provider_id : WireField GundiIdWire
  annotations : WireField FreeMap
  source_id : WireField GundiIdWire
  external_source_id : WireField String
  changes : WireField FreeMap
  observation_type : WireField String
deriving DecidableEq, Repr

/-- `EventUpdate` construction/validation.  Defaults: `owner = "na"`,
`external_source_id = "none"`, `observation_type = "evu"` (`const=True`). -/
def decodeEventUpdate (w : EventUpdateWire) : Except (List String) EventUpdate := do
  let owner ← reqStrField "owner" "na" w.owner
  let ot ← constStr "evu" "observation_type" w.observation_type
  pure { gundi_id := decodeOptId w.gundi_id,
         related_to := decodeOptId w.related_to,
         owner := owner,
         data_provider_id := decodeOptId w.data_provider_id,
         annotations := decodeOpt w.annotations,
         source_id := decodeOptId w.source_id,
         external_source_id := decodeOptDefault "none" w.external_source_id,
         changes := decodeOpt w.changes,
         observation_type := ot }

/-- `.dict()` of an `EventUpdate`. -/
def dictEventUpdate (e : EventUpdate) : EventUpdateWire :=
  { gundi_id := encodeOptId e.gundi_id,
    related_to := encodeOptId e.related_to,
    owner := .val e.owner,
    data_provider_id := encodeOptId e.data_provider_id,
    annotations := optW e.annotations,
    source_id := encodeOptId e.source_id,
    external_source_id := optW e.external_source_id,
    changes := optW e.changes,
    observation_type := .val e.observation_type }

/-! ## Attachment (`schemas/v2.py`, lines 181–198) -/

/-- A validated `Attachment` instance. -/
structure Attachment where
  gundi_id : Option GundiId
  related_to : Option GundiId
  owner : String
  data_provider_id : Option GundiId
  source_id : Option GundiId
  external_source_id : Option String
  file_path : String
  observation_type : String
  annotations : Option FreeMap
deriving DecidableEq, Repr

/-- Untyped input for `Attachment.parse_obj`. -/
structure AttachmentWire where
  gundi_id : WireField GundiIdWire
  related_to : WireField GundiIdWire
  owner : WireField String
  data_provider_id : WireField GundiIdWire
  source_id : WireField GundiIdWire
  external_source_id : WireField String
  file_path : WireField String
  observation_type : WireField String
  annotations : WireField FreeMap
deriving DecidableEq, Repr

/-- `Attachment` construction/validation.  Defaults: `owner = "na"`,
`external_source_id = "none"`, `observation_type = "att"` (`const=True`);
`file_path` required. -/
def decodeAttachment (w : AttachmentWire) : Except (List String) Attachment := do
  let owner ← reqStrField "owner" "na" w.owner
  let fp ← reqStr "file_path" w.file_path
  let ot ← constStr "att" "observation_type" w.observation_type
  pure { gundi_id := decodeOptId w.gundi_id,
         related_to := decodeOptId w.related_to,
         owner := owner,
         data_provider_id := decodeOptId w.data_provider_id,
         source_id := decodeOptId w.source_id,
         external_source_id := decodeOptDefault "none" w.external_source_id,
         file_path := fp,
         observation_type := ot,
         annotations := decodeOpt w.annotations }

/-- `.dict()` of an `Attachment`. -/
def dictAttachment (e : Attachment) : AttachmentWire :=
  { gundi_id := encodeOptId e.gundi_id,
    related_to := encodeOptId e.related_to,
    owner := .val e.owner,
    data_provider_id := encodeOptId e.data_provider_id,
    source_id := encodeOptId e.source_id,
    external_source_id := optW e.external_source_id,
    file_path := .val e.file_path,
    observation_type := .val e.observation_type,
    annotations := optW e.annotations }

/-! ## Validity predicates

What validated construction guarantees of an instance — exactly the image of
the decoders above: string-variant identifiers do not parse as UUIDs (a parse
would have produced the UUID variant), `recorded_at` carries a timezone (the
validator put one there), `Location` fields are in range, and the
discriminator is the type's fixed value. -/

/-- An identifier field as validation leaves it: the `str` variant only ever
holds strings `uuid.UUID` rejects. -/
def validIdB : Option GundiId → Bool
  | some (GundiId.str s) => (parseUUIDString s).isNone
  | _ => true

/-- `Location` field ranges, as enforced by `validateLocation`. -/
def locationInRange (l : Location) : Bool :=
  decide (-90 ≤ l.lat) && decide (l.lat ≤ 90) &&
    decide (-180 ≤ l.lon) && decide (l.lon ≤ 360)

/-- An `Observation` in the image of `decodeObservation`. -/
def observationValid (e : Observation) : Bool :=
  validIdB e.gundi_id && validIdB e.related_to && validIdB e.data_provider_id &&
    validIdB e.source_id && e.recorded_at.tz.isSome && locationInRange e.location &&
    e.observation_type == "obv"

/-- An `Event` in the image of `decodeEvent`. -/
def eventValid (e : Event) : Bool :=
  validIdB e.gundi_id && validIdB e.related_to && validIdB e.data_provider_id &&
    validIdB e.source_id &&
    (match e.recorded_at with | some dt => dt.tz.isSome | none => false) &&
    (match e.location with | some l => locationInRange l | none => true) &&
    e.observation_type == "ev"

/-- An `Attachment` in the image of `decodeAttachment`. -/
def attachmentValid (e : Attachment) : Bool :=
  validIdB e.gundi_id && validIdB e.related_to && validIdB e.data_provider_id &&
    validIdB e.source_id && e.observation_type == "att"

/-! ## System event envelope (`events/core.py`, `events/dispatchers.py`)

`SystemEventBaseModel` declares `event_id` (default `uuid4()`), `timestamp`
(default `datetime.now(timezone.utc)`), `schema_version` (default `"v1"`),
and `payload`; no `event_type` field exists on the model, so pydantic v1's
default config silently ignores an `event_type` key in the input.  Its
`dict()` override adds `event_type = self.__class__.__name__` to the output.
The generated `event_id` is modelled as an injected opaque `Nat`, the
generated timestamp as an injected `DateTimeV`. -/

/-- The stored state of a `SystemEventBaseModel` subclass with payload type
`π`: exactly the declared fields, with no `event_type`. -/
structure SystemEventBase (π : Type) where
  event_id : Nat
  timestamp : DateTimeV
  schema_version : Option String
  payload : π
deriving DecidableEq, Repr

/-- Construction of a `SystemEventBaseModel` subclass: `event_id` and
`timestamp` come from the default factories (injected here), `schema_version`
defaults to `"v1"`, and an `event_type` key in the input is ignored (the
model declares no such field and extra keys are ignored by default). -/
def constructSystemEvent {π : Type} (genId : Nat) (now : DateTimeV)
    (schema_version : WireField String) (payload : π)
    (event_type_input : WireField String) : SystemEventBase π :=
  match event_type_input with
  | _ =>
    { event_id := genId,
      timestamp := now,
      schema_version :=
        match schema_version with
        | .absent => some "v1"
        | .null => none
        | .val s => some s,
      payload := payload }

/-- The output of the overridden `dict()`: the declared fields plus the
injected `event_type`. -/
structure SystemEventDict (π : Type) where
  event_id : Nat
  timestamp : DateTimeV
  schema_version : Option String
  payload : π
  event_type : String
deriving DecidableEq, Repr

/-- `SystemEventBaseModel.dict()`: serialize the declared fields, then set
`event_type` to the concrete class's name. -/
def systemEventDict {π : Type} (className : String) (m : SystemEventBase π) :
    SystemEventDict π :=
  { event_id := m.event_id,
    timestamp := m.timestamp,
    schema_version := m.schema_version,
    payload := m.payload,
    event_type := className }

/-- `DispatchedObservation` (`schemas/v2.py`, lines 766–797). -/
structure DispatchedObservation where
  gundi_id : Option GundiId
  related_to : Option GundiId
  external_id : Option GundiId
  data_provider_id : Option GundiId
  destination_id : Option GundiId
  delivered_at : Option DateTimeV
deriving DecidableEq, Repr

/-- `ObservationDelivered` (`events/dispatchers.py`): a
`SystemEventBaseModel` whose payload is a `DispatchedObservation`. -/
abbrev ObservationDelivered := SystemEventBase DispatchedObservation

/-- Constructing an `ObservationDelivered`. -/
def mkObservationDelivered (genId : Nat) (now : DateTimeV)
    (schema_version : WireField String) (payload : DispatchedObservation)
    (event_type_input : WireField String) : ObservationDelivered :=
  constructSystemEvent genId now schema_version payload event_type_input

/-- `ObservationDelivered().dict()`: the class name is `"ObservationDelivered"`. -/
def dictObservationDelivered (m : ObservationDelivered) :
    SystemEventDict DispatchedObservation :=
  systemEventDict "ObservationDelivered" m

/-- `ObservationDeliveryFailed` (`events/dispatchers.py`): same payload type. -/
abbrev ObservationDeliveryFailed := SystemEventBase DispatchedObservation

/-- Constructing an `ObservationDeliveryFailed`. -/
def mkObservationDeliveryFailed (genId : Nat) (now : DateTimeV)
    (schema_version : WireField String) (payload : DispatchedObservation)
    (event_type_input : WireField String) : ObservationDeliveryFailed :=
  constructSystemEvent genId now schema_version payload event_type_input

/-- `ObservationDeliveryFailed().dict()`. -/
def dictObservationDeliveryFailed (m : ObservationDeliveryFailed) :
    SystemEventDict DispatchedObservation :=
  systemEventDict "ObservationDeliveryFailed" m

/-! ## Concrete instances used as witnesses -/

/-- The value of `bc14b256-dec0-4363-831d-39d0d2d85d50`, the source's own
example identifier. -/
def bcUUID : UUIDv := 0xbc14b256dec04363831d39d0d2d85d50

/-- A concrete valid `Observation` (modelled on the source's schema example). -/
def obsExample : Observation :=
  { gundi_id := some (.uuid bcUUID),
    related_to := none,
    owner := "na",
    data_provider_id := some (.str "provider-7"),
    annotations := none,
    source_id := some (.uuid bcUUID),
    external_source_id := some "None",
    source_name := some "Logistics Truck A",
    type := some "tracking-device",
    subject_type := none,
    recorded_at := ⟨2021, 3, 27, 11, 15, 0, 0, some 120⟩,
    location := ⟨-2, 35, 0, none, none⟩,
    additional := some [("voltage", "7.4")],
    observation_type := "obv" }

/-- A concrete valid `Event`. -/
def eventExample : Event :=
  { gundi_id := some (.uuid bcUUID),
    related_to := none,
    owner := "na",
    data_provider_id := none,
    annotations := none,
    source_id := some (.str "collar-9"),
    external_source_id := some "none",
    recorded_at := some ⟨2021, 3, 21, 12, 1, 2, 0, some 0⟩,
    location := some ⟨-2, 35, 0, none, none⟩,
    title := some "Rainfall",
    event_type := some "rainfall_rep",
    event_details := some [("amount_mm", "6")],
    geometry := none,
    observation_type := "ev" }

/-- A concrete valid `EventUpdate`. -/
def eventUpdateExample : EventUpdate :=
  { gundi_id := some (.uuid bcUUID),
    related_to := some (.uuid bcUUID),
    owner := "na",
    data_provider_id := none,
    annotations := none,
    source_id := none,
    external_source_id := some "none",
    changes := some [("title", "Weekly Rainfall")],
    observation_type := "evu" }

/-- A concrete valid `Attachment`. -/
def attachmentExample : Attachment :=
  { gundi_id := some (.uuid bcUUID),
    related_to := some (.uuid bcUUID),
    owner := "na",
    data_provider_id := none,
    source_id := none,
    external_source_id := some "none",
    file_path := "attachments/9bedc03e-8415-46db-aa70-782490cdff31_wild_dog-male.svg",
    observation_type := "att",
    annotations := none }

end Gundi

deriving instance DecidableEq for Except

namespace Gundi

/-! ## Helper lemmas -/

theorem decodeOpt_optW {α : Type} (x : Option α) : decodeOpt (optW x) = x := by
  cases x <;> rfl

theorem decodeOptDefault_optW {α : Type} (d : α) (x : Option α) :
    decodeOptDefault d (optW x) = x := by
  cases x <;> rfl

theorem decodeOptId_encodeOptId (g : Option GundiId) (h : validIdB g = true) :
    decodeOptId (encodeOptId g) = g := by
  match g with
  | none => rfl
  | some (.uuid u) => rfl
  | some (.str s) =>
    simp only [validIdB, Option.isNone_iff_eq_none] at h
    simp [encodeOptId, decodeOptId, encodeGundiIdWire, decodeGundiIdWire,
      parseGundiIdStr, h]

theorem cleanRecordedAt_of_aware (dt : DateTimeV) (h : dt.tz.isSome = true) :
    cleanRecordedAt dt = dt := by
  unfold cleanRecordedAt
  cases htz : dt.tz with
  | none => rw [htz] at h; simp at h
  | some o => simp [htz]

theorem validateLocation_dictLocation (l : Location) (h : locationInRange l = true) :
    validateLocation (dictLocation l) = .ok l := by
  simp only [locationInRange, Bool.and_eq_true, decide_eq_true_eq] at h
  obtain ⟨⟨⟨h1, h2⟩, h3⟩, h4⟩ := h
  simp [validateLocation, dictLocation, boundField, altField, h1, h2, h3, h4,
    decodeOpt_optW]

theorem constStr_ok {fixed name v : String} {w : WireField String}
    (h : constStr fixed name w = .ok v) : v = fixed := by
  cases w with
  | absent =>
    simp only [constStr] at h
    cases h
    rfl
  | null => simp [constStr] at h
  | val s =>
    by_cases hs : s = fixed
    · simp only [constStr, if_pos hs] at h
      cases h
      exact hs
    · simp [constStr, hs] at h

end Gundi

namespace Gundi

theorem hexChar_not_brace (n : Nat) (h : n < 16) : isBrace (hexChar n) = false := by
  interval_cases n <;> decide

theorem hexChar_ne_hyphen (n : Nat) (h : n < 16) : (hexChar n == '-') = false := by
  interval_cases n <;> decide

theorem isHexChar_hexChar (n : Nat) (h : n < 16) : isHexChar (hexChar n) = true := by
  interval_cases n <;> decide

theorem hexVal_hexChar (n : Nat) (h : n < 16) : hexVal (hexChar n) = n := by
  interval_cases n <;> decide

theorem dropWhile_eq_self_of_all {p : Char → Bool} (l : List Char)
    (h : ∀ c ∈ l, p c = false) : l.dropWhile p = l := by
  cases l with
  | nil => rfl
  | cons a t =>
    rw [List.dropWhile_cons, h a (List.mem_cons_self a t)]
    simp

theorem stripBraces_eq_self (l : List Char) (h : ∀ c ∈ l, isBrace c = false) :
    stripBraces l = l := by
  unfold stripBraces
  rw [dropWhile_eq_self_of_all l h]
  rw [dropWhile_eq_self_of_all l.reverse (fun c hc => h c (List.mem_reverse.mp hc))]
  exact List.reverse_reverse l

theorem mem_hyphenate {c : Char} {m : List Char} (hc : c ∈ hyphenate m) :
    c ∈ m ∨ c = '-' := by
  unfold hyphenate at hc
  simp only [List.append_assoc, List.mem_append, List.mem_singleton] at hc
  rcases hc with hc | hc | hc | hc | hc | hc | hc | hc | hc
  · exact Or.inl (List.take_subset _ _ hc)
  · exact Or.inr hc
  · exact Or.inl (List.drop_subset _ _ (List.take_subset _ _ hc))
  · exact Or.inr hc
  · exact Or.inl (List.drop_subset _ _ (List.take_subset _ _ hc))
  · exact Or.inr hc
  · exact Or.inl (List.drop_subset _ _ (List.take_subset _ _ hc))
  · exact Or.inr hc
  · exact Or.inl (List.drop_subset _ _ hc)

theorem filter_hyphenate (l : List Char) (h : ∀ c ∈ l, (c == '-') = false) :
    (hyphenate l).filter (fun c => !(c == '-')) = l := by
  have hp : ∀ c ∈ l, (!(c == '-')) = true := fun c hc => by rw [h c hc]; rfl
  have e1 : List.take 4 (List.drop 16 l) ++ List.drop 20 l = List.drop 16 l := by
    have := List.drop_take_append_drop l 16 4
    simpa using this
  have e2 : List.take 4 (List.drop 12 l) ++ List.drop 16 l = List.drop 12 l := by
    have := List.drop_take_append_drop l 12 4
    simpa using this
  have e3 : List.take 4 (List.drop 8 l) ++ List.drop 12 l = List.drop 8 l := by
    have := List.drop_take_append_drop l 8 4
    simpa using this
  unfold hyphenate
  simp only [List.filter_append]
  rw [List.filter_eq_self.mpr (fun a ha => hp a (List.take_subset _ _ ha)),
      List.filter_eq_self.mpr
        (fun a ha => hp a (List.drop_subset _ _ (List.take_subset _ _ ha))),
      List.filter_eq_self.mpr
        (fun a ha => hp a (List.drop_subset _ _ (List.take_subset _ _ ha))),
      List.filter_eq_self.mpr
        (fun a ha => hp a (List.drop_subset _ _ (List.take_subset _ _ ha))),
      List.filter_eq_self.mpr (fun a ha => hp a (List.drop_subset _ _ ha))]
  simp only [List.filter_cons, List.filter_nil]
  norm_num
  rw [e1, e2, e3, List.take_append_drop]

theorem hexChar_not_ws (n : Nat) (h : n < 16) : isPyWhitespace (hexChar n) = false := by
  interval_cases n <;> decide

theorem hexChar_ne_plus (n : Nat) (h : n < 16) : (hexChar n == '+') = false := by
  interval_cases n <;> decide

theorem hexChar_ne_colon (n : Nat) (h : n < 16) : (hexChar n == ':') = false := by
  interval_cases n <;> decide

theorem hexChar_ne_x (n : Nat) (h : n < 16) :
    (hexChar n == 'x') = false ∧ (hexChar n == 'X') = false := by
  interval_cases n <;> exact ⟨by decide, by decide⟩

theorem mem_of_isPrefixOf {l₁ l₂ : List Char} (h : l₁.isPrefixOf l₂ = true) :
    ∀ x ∈ l₁, x ∈ l₂ := by
  induction l₁ generalizing l₂ with
  | nil => intro x hx; cases hx
  | cons a t ih =>
    cases l₂ with
    | nil => cases h
    | cons b u =>
      simp only [List.isPrefixOf, Bool.and_eq_true, beq_iff_eq] at h
      intro x hx
      rcases List.mem_cons.mp hx with rfl | hxt
      · exact h.1 ▸ List.mem_cons_self _ _
      · exact List.mem_cons_of_mem b (ih h.2 x hxt)

theorem removePatternAux_zero_cons (p : Char) (pt : List Char) (c : Char)
    (rest : List Char) :
    removePatternAux p pt 0 (c :: rest) =
      if (p :: pt).isPrefixOf (c :: rest) then removePatternAux p pt pt.length rest
      else c :: removePatternAux p pt 0 rest := rfl

theorem removePattern_eq_self {p : Char} {pt : List Char} {x : Char}
    (hx : x ∈ p :: pt) :
    ∀ l : List Char, x ∉ l → removePattern p pt l = l := by
  intro l
  unfold removePattern
  induction l with
  | nil => intro _; rfl
  | cons c rest ih =>
    intro hmem
    have hpre : ((p :: pt).isPrefixOf (c :: rest)) = false := by
      cases hp : (p :: pt).isPrefixOf (c :: rest) with
      | false => rfl
      | true => exact absurd (mem_of_isPrefixOf hp x hx) hmem
    rw [removePatternAux_zero_cons, hpre]
    simp [ih (fun hr => hmem (List.mem_cons_of_mem c hr))]

theorem stripWs_eq_self (l : List Char) (h : ∀ c ∈ l, isPyWhitespace c = false) :
    stripWs l = l := by
  unfold stripWs
  rw [dropWhile_eq_self_of_all l h]
  rw [dropWhile_eq_self_of_all l.reverse (fun c hc => h c (List.mem_reverse.mp hc))]
  exact List.reverse_reverse l

theorem hexAcc_nil (acc : Nat) (b : Bool) :
    hexAcc acc b [] = if b then none else some acc := rfl

theorem hexAcc_cons (acc : Nat) (b : Bool) (c : Char) (rest : List Char) :
    hexAcc acc b (c :: rest) =
      if isHexChar c then hexAcc (acc * 16 + hexVal c) false rest
      else if c == '_' && !b then hexAcc acc true rest
      else none := rfl

theorem hexAcc_map (ds : List Nat) (h : ∀ x ∈ ds, x < 16) :
    ∀ acc, hexAcc acc false (ds.map hexChar) =
      some (ds.foldl (fun a x => a * 16 + x) acc) := by
  induction ds with
  | nil => intro acc; simp [hexAcc_nil]
  | cons x t ih =>
    intro acc
    have hx := h x (List.mem_cons_self x t)
    rw [List.map_cons, hexAcc_cons, if_pos (isHexChar_hexChar x hx),
      hexVal_hexChar x hx, ih (fun y hy => h y (List.mem_cons_of_mem x hy)),
      List.foldl_cons]

theorem intOfHexPy_map_hexChar (d0 : Nat) (dt : List Nat)
    (h : ∀ x ∈ d0 :: dt, x < 16) :
    intOfHexPy ((d0 :: dt).map hexChar) = some ((natOfDigits (d0 :: dt) : Int)) := by
  have h0 : d0 < 16 := h d0 (List.mem_cons_self _ _)
  have hws : stripWs ((d0 :: dt).map hexChar) = (d0 :: dt).map hexChar :=
    stripWs_eq_self _ (by
      intro c hc
      obtain ⟨n, hn, rfl⟩ := List.mem_map.mp hc
      exact hexChar_not_ws n (h n hn))
  have e1 : hexChar d0 ≠ '-' := by simpa using hexChar_ne_hyphen d0 h0
  have e2 : hexChar d0 ≠ '+' := by simpa using hexChar_ne_plus d0 h0
  cases dt with
  | nil =>
    simp only [List.map_cons, List.map_nil] at hws
    simp [intOfHexPy, hws, e1, e2, startHexDigits, isHexChar_hexChar d0 h0,
      hexVal_hexChar d0 h0, hexAcc_nil, natOfDigits]
  | cons d1 dt2 =>
    have h1 : d1 < 16 := h d1 (by simp)
    have e3 : hexChar d1 ≠ 'x' := by simpa using (hexChar_ne_x d1 h1).1
    have e4 : hexChar d1 ≠ 'X' := by simpa using (hexChar_ne_x d1 h1).2
    have hmap : hexAcc d0 false (hexChar d1 :: dt2.map hexChar) =
        some ((d1 :: dt2).foldl (fun a x => a * 16 + x) d0) := by
      simpa using
        hexAcc_map (d1 :: dt2) (fun y hy => h y (List.mem_cons_of_mem d0 hy)) d0
    simp only [List.map_cons] at hws
    simp [intOfHexPy, hws, e1, e2, e3, e4, startHexDigits,
      isHexChar_hexChar d0 h0, hexVal_hexChar d0 h0, hmap, natOfDigits]

theorem foldl_digits (n : Nat) :
    ∀ (k acc : Nat), ((List.range k).map (fun i => n / 16 ^ (k - 1 - i) % 16)).foldl
        (fun a x => a * 16 + x) acc = acc * 16 ^ k + n % 16 ^ k := by
  intro k
  induction k with
  | zero => intro acc; simp [Nat.mod_one]
  | succ k ih =>
    intro acc
    rw [List.range_succ_eq_map]
    simp only [List.map_cons, List.map_map, List.foldl_cons]
    have hf : ((fun i => n / 16 ^ (k + 1 - 1 - i) % 16) ∘ Nat.succ) =
        (fun i => n / 16 ^ (k - 1 - i) % 16) := by
      funext i
      have he : k + 1 - 1 - Nat.succ i = k - 1 - i := by omega
      simp only [Function.comp]
      rw [he]
    have h00 : k + 1 - 1 - 0 = k := by omega
    rw [hf, h00, ih (acc * 16 + n / 16 ^ k % 16)]
    have hm : n % 16 ^ (k + 1) = n % 16 ^ k + 16 ^ k * (n / 16 ^ k % 16) := by
      rw [pow_succ]
      exact Nat.mod_mul
    rw [hm, pow_succ]
    ring

theorem natOfDigits_digitsOfNat32 (n : Nat) (h : n < 2 ^ 128) :
    natOfDigits (digitsOfNat32 n) = n := by
  unfold natOfDigits digitsOfNat32
  have hf : (fun i => n / 16 ^ (31 - i) % 16) = (fun i => n / 16 ^ (32 - 1 - i) % 16) := by
    funext i
    norm_num
  have h16 : (16 : Nat) ^ 32 = 2 ^ 128 := by norm_num
  have h' : n < 16 ^ 32 := by
    rw [h16]
    exact h
  rw [hf, foldl_digits n 32 0, Nat.mod_eq_of_lt h']
  ring

theorem digitsOfNat32_lt (n : Nat) : ∀ x ∈ digitsOfNat32 n, x < 16 := by
  intro x hx
  obtain ⟨i, _, hxe⟩ := List.mem_map.mp hx
  subst hxe
  exact Nat.mod_lt _ (by norm_num)

theorem digitsOfNat32_length (n : Nat) : (digitsOfNat32 n).length = 32 := by
  simp [digitsOfNat32]

theorem parseUUIDString_canonUUID (u : UUIDv) (h : u < 2 ^ 128) :
    parseUUIDString (canonUUID u) = some u := by
  have hdig := digitsOfNat32_lt u
  have hmapmem : ∀ c ∈ (digitsOfNat32 u).map hexChar, ∃ n, n < 16 ∧ c = hexChar n := by
    intro c hc
    obtain ⟨n, hn, rfl⟩ := List.mem_map.mp hc
    exact ⟨n, hdig n hn, rfl⟩
  have hnb : ∀ c ∈ hyphenate ((digitsOfNat32 u).map hexChar), isBrace c = false := by
    intro c hc
    rcases mem_hyphenate hc with hm | rfl
    · obtain ⟨n, hn, rfl⟩ := hmapmem c hm
      exact hexChar_not_brace n hn
    · decide
  have hcolon : (':' : Char) ∉ hyphenate ((digitsOfNat32 u).map hexChar) := by
    intro hc
    rcases mem_hyphenate hc with hm | he
    · obtain ⟨n, hn, hcn⟩ := hmapmem _ hm
      have hfact := hexChar_ne_colon n hn
      rw [← hcn] at hfact
      simp at hfact
    · exact absurd he (by decide)
  have hnh : ∀ c ∈ (digitsOfNat32 u).map hexChar, (c == '-') = false := by
    intro c hc
    obtain ⟨n, hn, rfl⟩ := hmapmem c hc
    exact hexChar_ne_hyphen n hn
  have hr1 : removePattern 'u' ['r', 'n', ':']
      (hyphenate ((digitsOfNat32 u).map hexChar)) =
      hyphenate ((digitsOfNat32 u).map hexChar) :=
    removePattern_eq_self (by simp) _ hcolon
  have hr2 : removePattern 'u' ['u', 'i', 'd', ':']
      (hyphenate ((digitsOfNat32 u).map hexChar)) =
      hyphenate ((digitsOfNat32 u).map hexChar) :=
    removePattern_eq_self (by simp) _ hcolon
  have hlen : ((digitsOfNat32 u).map hexChar).length = 32 := by
    rw [List.length_map, digitsOfNat32_length]
  have hchain : uuidBytesOf (canonUUID u).data = (digitsOfNat32 u).map hexChar := by
    rw [show (canonUUID u).data = hyphenate ((digitsOfNat32 u).map hexChar) from rfl]
    unfold uuidBytesOf
    rw [hr1, hr2, stripBraces_eq_self _ hnb, filter_hyphenate _ hnh]
  have hcond : (((digitsOfNat32 u).map hexChar).length == 32) = true := by
    rw [hlen]
    decide
  unfold parseUUIDString
  rw [hchain, if_pos hcond]
  cases hds : digitsOfNat32 u with
  | nil => exact absurd (digitsOfNat32_length u) (by rw [hds]; decide)
  | cons d0 dt =>
    rw [intOfHexPy_map_hexChar d0 dt (by rw [← hds]; exact hdig)]
    have hval : natOfDigits (d0 :: dt) = u := by
      rw [← hds]
      exact natOfDigits_digitsOfNat32 u h
    have hc : (u : Int) < 2 ^ 128 := by exact_mod_cast h
    rw [hval]
    show (if 0 ≤ (u : Int) ∧ (u : Int) < 2 ^ 128 then some ((u : Int)).toNat else none) =
      some u
    rw [if_pos ⟨Int.natCast_nonneg u, hc⟩, Int.toNat_natCast]

end Gundi

namespace Gundi

theorem optW_none {α : Type} : optW (none : Option α) = .null := rfl

theorem optW_some {α : Type} (a : α) : optW (some a) = .val a := rfl

theorem obs_roundtrip (e : Observation) (h : observationValid e = true) :
    decodeObservation (dictObservation e) = .ok e := by
  obtain ⟨gid, rel, ow, dpid, ann, sid, esid, sn, ty, sty, recAt, loc, add, ot⟩ := e
  simp only [observationValid, Bool.and_eq_true, beq_iff_eq] at h
  obtain ⟨⟨⟨⟨⟨⟨h1, h2⟩, h3⟩, h4⟩, h5⟩, h6⟩, h7⟩ := h
  subst h7
  simp only [decodeObservation, dictObservation, reqStrField, obsRecordedAt, reqLocation,
    constStr, cleanRecordedAt_of_aware _ h5, validateLocation_dictLocation _ h6,
    decodeOptId_encodeOptId _ h1, decodeOptId_encodeOptId _ h2,
    decodeOptId_encodeOptId _ h3, decodeOptId_encodeOptId _ h4,
    decodeOpt_optW, decodeOptDefault_optW, if_pos]
  rfl

theorem event_roundtrip (e : Event) (h : eventValid e = true) :
    decodeEvent (dictEvent e) = .ok e := by
  obtain ⟨gid, rel, ow, dpid, ann, sid, esid, recAt, loc, ti, ety, edet, geo, ot⟩ := e
  simp only [eventValid, Bool.and_eq_true, beq_iff_eq] at h
  obtain ⟨⟨⟨⟨⟨⟨h1, h2⟩, h3⟩, h4⟩, h5⟩, h6⟩, h7⟩ := h
  subst h7
  cases recAt with
  | none => simp at h5
  | some dt =>
    have h5' : dt.tz.isSome = true := h5
    cases loc with
    | none =>
      simp only [decodeEvent, dictEvent, reqStrField, eventRecordedAt, optLocation,
        encodeOptLocation, constStr, optW_some, cleanRecordedAt_of_aware _ h5',
        decodeOptId_encodeOptId _ h1, decodeOptId_encodeOptId _ h2,
        decodeOptId_encodeOptId _ h3, decodeOptId_encodeOptId _ h4,
        decodeOpt_optW, decodeOptDefault_optW, if_pos]
      rfl
    | some l =>
      have h6' : locationInRange l = true := h6
      simp only [decodeEvent, dictEvent, reqStrField, eventRecordedAt, optLocation,
        encodeOptLocation, constStr, optW_some, cleanRecordedAt_of_aware _ h5',
        validateLocation_dictLocation _ h6',
        decodeOptId_encodeOptId _ h1, decodeOptId_encodeOptId _ h2,
        decodeOptId_encodeOptId _ h3, decodeOptId_encodeOptId _ h4,
        decodeOpt_optW, decodeOptDefault_optW, if_pos]
      rfl

theorem attachment_roundtrip (e : Attachment) (h : attachmentValid e = true) :
    decodeAttachment (dictAttachment e) = .ok e := by
  obtain ⟨gid, rel, ow, dpid, sid, esid, fp, ot, ann⟩ := e
  simp only [attachmentValid, Bool.and_eq_true, beq_iff_eq] at h
  obtain ⟨⟨⟨⟨h1, h2⟩, h3⟩, h4⟩, h5⟩ := h
  subst h5
  simp only [decodeAttachment, dictAttachment, reqStrField, reqStr, constStr,
    decodeOptId_encodeOptId _ h1, decodeOptId_encodeOptId _ h2,
    decodeOptId_encodeOptId _ h3, decodeOptId_encodeOptId _ h4,
    decodeOpt_optW, decodeOptDefault_optW, if_pos]
  rfl

end Gundi

namespace Gundi

theorem exceptBind_ok {ε α β : Type} (x : Except ε α) (f : α → Except ε β) (b : β)
    (h : (x >>= f) = .ok b) : ∃ a, x = .ok a ∧ f a = .ok b := by
  cases x with
  | error e => cases h
  | ok a => exact ⟨a, rfl, h⟩

theorem decodeObservation_ok_elim {w : ObservationWire} {e : Observation}
    (h : decodeObservation w = .ok e) :
    ∃ ow ra lo ot, reqStrField "owner" "na" w.owner = .ok ow ∧
      obsRecordedAt w.recorded_at = .ok ra ∧
      reqLocation w.location = .ok lo ∧
      constStr "obv" "observation_type" w.observation_type = .ok ot ∧
      e = { gundi_id := decodeOptId w.gundi_id, related_to := decodeOptId w.related_to,
            owner := ow, data_provider_id := decodeOptId w.data_provider_id,
            annotations := decodeOpt w.annotations, source_id := decodeOptId w.source_id,
            external_source_id := decodeOptDefault "None" w.external_source_id,
            source_name := decodeOpt w.source_name,
            type := decodeOptDefault "tracking-device" w.type,
            subject_type := decodeOpt w.subject_type, recorded_at := ra, location := lo,
            additional := decodeOpt w.additional, observation_type := ot } := by
  unfold decodeObservation at h
  obtain ⟨ow, h1, h⟩ := exceptBind_ok _ _ _ h
  obtain ⟨ra, h2, h⟩ := exceptBind_ok _ _ _ h
  obtain ⟨lo, h3, h⟩ := exceptBind_ok _ _ _ h
  obtain ⟨ot, h4, h⟩ := exceptBind_ok _ _ _ h
  cases h
  exact ⟨ow, ra, lo, ot, h1, h2, h3, h4, rfl⟩

end Gundi

namespace Gundi

theorem decodeEvent_ok_elim {w : EventWire} {e : Event}
    (h : decodeEvent w = .ok e) :
    ∃ ow ra lo ot, reqStrField "owner" "na" w.owner = .ok ow ∧
      eventRecordedAt w.recorded_at = .ok ra ∧
      optLocation w.location = .ok lo ∧
      constStr "ev" "observation_type" w.observation_type = .ok ot ∧
      e = { gundi_id := decodeOptId w.gundi_id, related_to := decodeOptId w.related_to,
            owner := ow, data_provider_id := decodeOptId w.data_provider_id,
            annotations := decodeOpt w.annotations, source_id := decodeOptId w.source_id,
            external_source_id := decodeOptDefault "none" w.external_source_id,
            recorded_at := ra, location := lo, title := decodeOpt w.title,
            event_type := decodeOpt w.event_type,
            event_details := decodeOpt w.event_details, geometry := decodeOpt w.geometry,
            observation_type := ot } := by
  unfold decodeEvent at h
  obtain ⟨ow, h1, h⟩ := exceptBind_ok _ _ _ h
  obtain ⟨ra, h2, h⟩ := exceptBind_ok _ _ _ h
  obtain ⟨lo, h3, h⟩ := exceptBind_ok _ _ _ h
  obtain ⟨ot, h4, h⟩ := exceptBind_ok _ _ _ h
  cases h
  exact ⟨ow, ra, lo, ot, h1, h2, h3, h4, rfl⟩

theorem decodeEventUpdate_ok_elim {w : EventUpdateWire} {e : EventUpdate}
    (h : decodeEventUpdate w = .ok e) :
    ∃ ow ot, reqStrField "owner" "na" w.owner = .ok ow ∧
      constStr "evu" "observation_type" w.observation_type = .ok ot ∧
      e = { gundi_id := decodeOptId w.gundi_id, related_to := decodeOptId w.related_to,
            owner := ow, data_provider_id := decodeOptId w.data_provider_id,
            annotations := decodeOpt w.annotations, source_id := decodeOptId w.source_id,
            external_source_id := decodeOptDefault "none" w.external_source_id,
            changes := decodeOpt w.changes, observation_type := ot } := by
  unfold decodeEventUpdate at h
  obtain ⟨ow, h1, h⟩ := exceptBind_ok _ _ _ h
  obtain ⟨ot, h2, h⟩ := exceptBind_ok _ _ _ h
  cases h
  exact ⟨ow, ot, h1, h2, rfl⟩

theorem decodeAttachment_ok_elim {w : AttachmentWire} {e : Attachment}
    (h : decodeAttachment w = .ok e) :
    ∃ ow fp ot, reqStrField "owner" "na" w.owner = .ok ow ∧
      reqStr "file_path" w.file_path = .ok fp ∧
      constStr "att" "observation_type" w.observation_type = .ok ot ∧
      e = { gundi_id := decodeOptId w.gundi_id, related_to := decodeOptId w.related_to,
            owner := ow, data_provider_id := decodeOptId w.data_provider_id,
            source_id := decodeOptId w.source_id,
            external_source_id := decodeOptDefault "none" w.external_source_id,
            file_path := fp, observation_type := ot,
            annotations := decodeOpt w.annotations } := by
  unfold decodeAttachment at h
  obtain ⟨ow, h1, h⟩ := exceptBind_ok _ _ _ h
  obtain ⟨fp, h2, h⟩ := exceptBind_ok _ _ _ h
  obtain ⟨ot, h3, h⟩ := exceptBind_ok _ _ _ h
  cases h
  exact ⟨ow, fp, ot, h1, h2, h3, rfl⟩

theorem constStr_val_ne {fixed name s : String} (hs : s ≠ fixed) :
    constStr fixed name (.val s) = .error [name] := by
  simp [constStr, hs]

theorem eventRecordedAt_ok {x : WireField DateTimeV} {ra : Option DateTimeV}
    (h : eventRecordedAt x = .ok ra) :
    ∃ dt, x = .val dt ∧ ra = some (cleanRecordedAt dt) := by
  cases x with
  | absent => cases h
  | null => cases h
  | val dt =>
    simp only [eventRecordedAt] at h
    cases h
    exact ⟨dt, rfl, rfl⟩

end Gundi

namespace Gundi

/-- Claim C1: for every entity type in the stream-type registry (Observation,
Event, Attachment), decoding the `.dict()` encoding of any instance satisfying
the type's constraints yields the same instance. -/
theorem claim1_entity_roundtrip :
    (∀ e : Observation, observationValid e = true →
        decodeObservation (dictObservation e) = .ok e) ∧
    (∀ e : Event, eventValid e = true → decodeEvent (dictEvent e) = .ok e) ∧
    (∀ e : Attachment, attachmentValid e = true →
        decodeAttachment (dictAttachment e) = .ok e) :=
  ⟨obs_roundtrip, event_roundtrip, attachment_roundtrip⟩

/-- Claim C1, witness: the round trip at concrete valid instances of all
three registry types. -/
theorem claim1_entity_roundtrip_witness :
    (observationValid obsExample = true ∧
      decodeObservation (dictObservation obsExample) = .ok obsExample) ∧
    (eventValid eventExample = true ∧
      decodeEvent (dictEvent eventExample) = .ok eventExample) ∧
    (attachmentValid attachmentExample = true ∧
      decodeAttachment (dictAttachment attachmentExample) = .ok attachmentExample) :=
  ⟨⟨by decide, claim1_entity_roundtrip.1 obsExample (by decide)⟩,
   ⟨by decide, claim1_entity_roundtrip.2.1 eventExample (by decide)⟩,
   ⟨by decide, claim1_entity_roundtrip.2.2 attachmentExample (by decide)⟩⟩

/-- Claim C2: `clean_recorded_at` maps a timezone-naive timestamp to the same
wall-clock time with an explicit UTC offset, leaves a timezone-aware timestamp
unchanged, and is idempotent. -/
theorem claim2_tz_normalization :
    ∀ dt : DateTimeV,
      (dt.tz = none → cleanRecordedAt dt = { dt with tz := some 0 }) ∧
      (dt.tz ≠ none → cleanRecordedAt dt = dt) ∧
      cleanRecordedAt (cleanRecordedAt dt) = cleanRecordedAt dt := by
  intro dt
  refine ⟨fun h => ?_, fun h => ?_, ?_⟩
  · simp [cleanRecordedAt, h]
  · simp [cleanRecordedAt, h]
  · by_cases h : dt.tz = none
    · simp [cleanRecordedAt, h]
    · simp [cleanRecordedAt, h]

/-- Claim C2, witness: the spec's own example `2021-03-21T12:01:02` becomes
`2021-03-21T12:01:02+00:00`, and an already-UTC timestamp is unchanged. -/
theorem claim2_tz_normalization_witness :
    cleanRecordedAt ⟨2021, 3, 21, 12, 1, 2, 0, none⟩ =
      ⟨2021, 3, 21, 12, 1, 2, 0, some 0⟩ ∧
    cleanRecordedAt ⟨2021, 3, 27, 9, 15, 0, 0, some 0⟩ =
      ⟨2021, 3, 27, 9, 15, 0, 0, some 0⟩ :=
  ⟨(claim2_tz_normalization ⟨2021, 3, 21, 12, 1, 2, 0, none⟩).1 rfl,
   (claim2_tz_normalization ⟨2021, 3, 27, 9, 15, 0, 0, some 0⟩).2.1 (by decide)⟩

/-- Claim C3: serializing a concrete envelope subtype always emits
`event_type` equal to the subtype's class name, whatever `event_type` value
the caller attempted to pass at construction; the model stores no
`event_type` state. -/
theorem claim3_envelope_event_type :
    (∀ (genId : Nat) (now : DateTimeV) (sv : WireField String)
        (p : DispatchedObservation) (attempt : WireField String),
        (dictObservationDelivered
            (mkObservationDelivered genId now sv p attempt)).event_type =
          "ObservationDelivered") ∧
    (∀ (genId : Nat) (now : DateTimeV) (sv : WireField String)
        (p : DispatchedObservation) (attempt : WireField String),
        (dictObservationDeliveryFailed
            (mkObservationDeliveryFailed genId now sv p attempt)).event_type =
          "ObservationDeliveryFailed") ∧
    (∀ (π : Type) (className : String) (genId : Nat) (now : DateTimeV)
        (sv : WireField String) (p : π) (attempt : WireField String),
        (systemEventDict className
            (constructSystemEvent genId now sv p attempt)).event_type = className) :=
  ⟨fun _ _ _ _ _ => rfl, fun _ _ _ _ _ => rfl, fun _ _ _ _ _ _ _ => rfl⟩

/-- Claim C4: the stream-type registry maps exactly `obv`, `ev` and `att`;
every other discriminator value — including `evu` and `xyz` — fails the
lookup instead of guessing a type. -/
theorem claim4_registry :
    models_by_stream_type "obv" = some EntityModel.observation ∧
    models_by_stream_type "ev" = some EntityModel.event ∧
    models_by_stream_type "att" = some EntityModel.attachment ∧
    models_by_stream_type "evu" = none ∧
    models_by_stream_type "xyz" = none ∧
    (∀ s : String, s ≠ "obv" → s ≠ "ev" → s ≠ "att" →
        models_by_stream_type s = none) := by
  refine ⟨by decide, by decide, by decide, by decide, by decide, ?_⟩
  intro s h1 h2 h3
  have b1 : (s == "obv") = false := beq_eq_false_iff_ne.mpr h1
  have b2 : (s == "ev") = false := beq_eq_false_iff_ne.mpr h2
  have b3 : (s == "att") = false := beq_eq_false_iff_ne.mpr h3
  simp [models_by_stream_type, List.lookup, StreamPrefixEnum.value, b1, b2, b3]

/-- Claim C4, witness: the totality clause at the excluded enum value
`obvu`. -/
theorem claim4_registry_witness : models_by_stream_type "obvu" = none :=
  claim4_registry.2.2.2.2.2 "obvu" (by decide) (by decide) (by decide)

/-- Claim C5: the `observation_type` discriminator is constant per type: any
successfully constructed entity serializes with its type's fixed
discriminator, and supplying any other value for it at construction is
rejected (`const=True`) rather than stored. -/
theorem claim5_discriminator_fixity :
    (∀ (w : ObservationWire) (e : Observation), decodeObservation w = .ok e →
        (dictObservation e).observation_type = .val "obv") ∧
    (∀ (w : EventWire) (e : Event), decodeEvent w = .ok e →
        (dictEvent e).observation_type = .val "ev") ∧
    (∀ (w : EventUpdateWire) (e : EventUpdate), decodeEventUpdate w = .ok e →
        (dictEventUpdate e).observation_type = .val "evu") ∧
    (∀ (w : AttachmentWire) (e : Attachment), decodeAttachment w = .ok e →
        (dictAttachment e).observation_type = .val "att") ∧
    (∀ (w : ObservationWire) (s : String), w.observation_type = .val s →
        s ≠ "obv" → ∀ e, decodeObservation w ≠ .ok e) ∧
    (∀ (w : EventWire) (s : String), w.observation_type = .val s →
        s ≠ "ev" → ∀ e, decodeEvent w ≠ .ok e) ∧
    (∀ (w : EventUpdateWire) (s : String), w.observation_type = .val s →
        s ≠ "evu" → ∀ e, decodeEventUpdate w ≠ .ok e) ∧
    (∀ (w : AttachmentWire) (s : String), w.observation_type = .val s →
        s ≠ "att" → ∀ e, decodeAttachment w ≠ .ok e) := by
  refine ⟨?_, ?_, ?_, ?_, ?_, ?_, ?_, ?_⟩
  · intro w e h
    obtain ⟨ow, ra, lo, ot, _, _, _, h4, rfl⟩ := decodeObservation_ok_elim h
    simp [dictObservation, constStr_ok h4]
  · intro w e h
    obtain ⟨ow, ra, lo, ot, _, _, _, h4, rfl⟩ := decodeEvent_ok_elim h
    simp [dictEvent, constStr_ok h4]
  · intro w e h
    obtain ⟨ow, ot, _, h2, rfl⟩ := decodeEventUpdate_ok_elim h
    simp [dictEventUpdate, constStr_ok h2]
  · intro w e h
    obtain ⟨ow, fp, ot, _, _, h3, rfl⟩ := decodeAttachment_ok_elim h
    simp [dictAttachment, constStr_ok h3]
  · intro w s hw hs e h
    obtain ⟨ow, ra, lo, ot, _, _, _, h4, _⟩ := decodeObservation_ok_elim h
    rw [hw, constStr_val_ne hs] at h4
    cases h4
  · intro w s hw hs e h
    obtain ⟨ow, ra, lo, ot, _, _, _, h4, _⟩ := decodeEvent_ok_elim h
    rw [hw, constStr_val_ne hs] at h4
    cases h4
  · intro w s hw hs e h
    obtain ⟨ow, ot, _, h2, _⟩ := decodeEventUpdate_ok_elim h
    rw [hw, constStr_val_ne hs] at h2
    cases h2
  · intro w s hw hs e h
    obtain ⟨ow, fp, ot, _, _, h3, _⟩ := decodeAttachment_ok_elim h
    rw [hw, constStr_val_ne hs] at h3
    cases h3

/-- Claim C5, witness: fixity at concrete decoded instances, and rejection of
an attempted override at a concrete input. -/
theorem claim5_discriminator_fixity_witness :
    (dictObservation obsExample).observation_type = .val "obv" ∧
    (dictEvent eventExample).observation_type = .val "ev" ∧
    (dictEventUpdate eventUpdateExample).observation_type = .val "evu" ∧
    (dictAttachment attachmentExample).observation_type = .val "att" ∧
    decodeObservation
        { dictObservation obsExample with observation_type := .val "ev" } ≠
      .ok obsExample :=
  ⟨claim5_discriminator_fixity.1 (dictObservation obsExample) obsExample (by decide),
   claim5_discriminator_fixity.2.1 (dictEvent eventExample) eventExample (by decide),
   claim5_discriminator_fixity.2.2.1 (dictEventUpdate eventUpdateExample)
     eventUpdateExample (by decide),
   claim5_discriminator_fixity.2.2.2.1 (dictAttachment attachmentExample)
     attachmentExample (by decide),
   claim5_discriminator_fixity.2.2.2.2.1
     { dictObservation obsExample with observation_type := .val "ev" } "ev" rfl
     (by decide) obsExample⟩

end Gundi

namespace Gundi

set_option maxRecDepth 8000 in
/-- Claim C6, counterexample: the textual round trip does not preserve the
original form of every accepted input — a UUID supplied as uppercase
hyphen-less hex, or with the `urn:uuid:` marker `uuid.UUID` removes, is
accepted and re-serialized in canonical lowercase hyphenated form. -/
theorem claim6_roundtrip_counterexample :
    roundtripIdText "BC14B256DEC04363831D39D0D2D85D50" ≠
      "BC14B256DEC04363831D39D0D2D85D50" ∧
    roundtripIdText "BC14B256DEC04363831D39D0D2D85D50" =
      "bc14b256-dec0-4363-831d-39d0d2d85d50" ∧
    roundtripIdText "urn:uuid:bc14b256-dec0-4363-831d-39d0d2d85d50" ≠
      "urn:uuid:bc14b256-dec0-4363-831d-39d0d2d85d50" ∧
    roundtripIdText "urn:uuid:bc14b256-dec0-4363-831d-39d0d2d85d50" =
      "bc14b256-dec0-4363-831d-39d0d2d85d50" := by
  exact ⟨by decide, by decide, by decide, by decide⟩

/-- Claim C6 (amended): a UUID-or-string field accepts both forms; the round
trip preserves the textual form of any input that does not parse as a UUID,
and of any UUID text already in canonical lowercase hyphenated form; a UUID
in a non-canonical textual form is canonicalized. -/
theorem claim6_identifier_roundtrip :
    (∀ s : String, parseUUIDString s = none → roundtripIdText s = s) ∧
    (∀ u : UUIDv, u < 2 ^ 128 →
        roundtripIdText (canonUUID u) = canonUUID u) := by
  constructor
  · intro s h
    simp [roundtripIdText, parseGundiIdStr, h, encodeGundiIdText]
  · intro u h
    simp [roundtripIdText, parseGundiIdStr, parseUUIDString_canonUUID u h,
      encodeGundiIdText]

/-- Claim C6, witness: a non-UUID string and a canonical UUID string both
round trip unchanged. -/
theorem claim6_identifier_roundtrip_witness :
    roundtripIdText "device-123" = "device-123" ∧
    roundtripIdText (canonUUID bcUUID) = canonUUID bcUUID :=
  ⟨claim6_identifier_roundtrip.1 "device-123" (by decide),
   claim6_identifier_roundtrip.2 bcUUID (by decide)⟩

/-- Claim C7, counterexample: the source puts no lower bound on `alt`
(`alt: float = Field(0.0)` has no `ge`), so a `Location` with a negative
altitude is constructed successfully instead of failing validation. -/
theorem claim7_alt_counterexample :
    validateLocation ⟨.val 0, .val 0, .val (-1), .absent, .absent⟩ =
      .ok ⟨0, 0, -1, none, none⟩ ∧ (-1 : Rat) < 0 := by
  exact ⟨by decide, by decide⟩

/-- Claim C7 (amended): `alt` defaults to `0` when omitted, but no lower
bound is enforced — any value, including negative ones, is accepted. -/
theorem claim7_alt_default_unconstrained :
    (∀ la lo a : Rat, -90 ≤ la → la ≤ 90 → -180 ≤ lo → lo ≤ 360 →
        validateLocation ⟨.val la, .val lo, .val a, .absent, .absent⟩ =
          .ok ⟨la, lo, a, none, none⟩) ∧
    (∀ la lo : Rat, -90 ≤ la → la ≤ 90 → -180 ≤ lo → lo ≤ 360 →
        validateLocation ⟨.val la, .val lo, .absent, .absent, .absent⟩ =
          .ok ⟨la, lo, 0, none, none⟩) := by
  constructor
  · intro la lo a h1 h2 h3 h4
    simp [validateLocation, boundField, altField, h1, h2, h3, h4, decodeOpt]
  · intro la lo h1 h2 h3 h4
    simp [validateLocation, boundField, altField, h1, h2, h3, h4, decodeOpt]

/-- Claim C7, witness: a negative altitude accepted, and the omitted-`alt`
default of `0`, at concrete inputs. -/
theorem claim7_alt_default_unconstrained_witness :
    validateLocation ⟨.val 10, .val 20, .val (-5), .absent, .absent⟩ =
      .ok ⟨10, 20, -5, none, none⟩ ∧
    validateLocation ⟨.val 10, .val 20, .absent, .absent, .absent⟩ =
      .ok ⟨10, 20, 0, none, none⟩ :=
  ⟨claim7_alt_default_unconstrained.1 10 20 (-5) (by norm_num) (by norm_num)
     (by norm_num) (by norm_num),
   claim7_alt_default_unconstrained.2 10 20 (by norm_num) (by norm_num)
     (by norm_num) (by norm_num)⟩

/-- Claim C8: `lat` bounds are inclusive and enforced at construction —
`lat = 91` fails citing the `lat` field, `lat = ±90` succeed — and `lon` is
accepted exactly on `[-180, 360]`. -/
theorem claim8_location_bounds :
    validateLocation ⟨.val 91, .val 0, .absent, .absent, .absent⟩ =
      .error ["lat"] ∧
    validateLocation ⟨.val (-90), .val 0, .absent, .absent, .absent⟩ =
      .ok ⟨-90, 0, 0, none, none⟩ ∧
    validateLocation ⟨.val 90, .val 0, .absent, .absent, .absent⟩ =
      .ok ⟨90, 0, 0, none, none⟩ ∧
    (∀ lo : Rat, -180 ≤ lo → lo ≤ 360 →
        validateLocation ⟨.val 0, .val lo, .absent, .absent, .absent⟩ =
          .ok ⟨0, lo, 0, none, none⟩) ∧
    (∀ lo : Rat, ¬(-180 ≤ lo ∧ lo ≤ 360) →
        validateLocation ⟨.val 0, .val lo, .absent, .absent, .absent⟩ =
          .error ["lon"]) := by
  refine ⟨by decide, by decide, by decide, ?_, ?_⟩
  · intro lo h1 h2
    simp [validateLocation, boundField, altField, h1, h2, decodeOpt]
  · intro lo h
    simp [validateLocation, boundField, altField, h, errsOf]

/-- Claim C8, witness: the `lon` clauses at the inclusive endpoint `360` and
at the out-of-range `361`. -/
theorem claim8_location_bounds_witness :
    validateLocation ⟨.val 0, .val 360, .absent, .absent, .absent⟩ =
      .ok ⟨0, 360, 0, none, none⟩ ∧
    validateLocation ⟨.val 0, .val 361, .absent, .absent, .absent⟩ =
      .error ["lon"] :=
  ⟨claim8_location_bounds.2.2.2.1 360 (by norm_num) (by norm_num),
   claim8_location_bounds.2.2.2.2 361 (by norm_num)⟩

/-- Claim C9: when `external_source_id` is omitted, a constructed
`Observation` carries the literal string `"None"` while `Event`,
`EventUpdate` and `Attachment` carry `"none"` — a non-absent default whose
case differs between `Observation` and the other types. -/
theorem claim9_external_source_id_defaults :
    (∀ (w : ObservationWire) (e : Observation), w.external_source_id = .absent →
        decodeObservation w = .ok e → e.external_source_id = some "None") ∧
    (∀ (w : EventWire) (e : Event), w.external_source_id = .absent →
        decodeEvent w = .ok e → e.external_source_id = some "none") ∧
    (∀ (w : EventUpdateWire) (e : EventUpdate), w.external_source_id = .absent →
        decodeEventUpdate w = .ok e → e.external_source_id = some "none") ∧
    (∀ (w : AttachmentWire) (e : Attachment), w.external_source_id = .absent →
        decodeAttachment w = .ok e → e.external_source_id = some "none") ∧
    ("None" : String) ≠ "none" := by
  refine ⟨?_, ?_, ?_, ?_, by decide⟩
  · intro w e hw h
    obtain ⟨ow, ra, lo, ot, _, _, _, _, rfl⟩ := decodeObservation_ok_elim h
    simp [hw, decodeOptDefault]
  · intro w e hw h
    obtain ⟨ow, ra, lo, ot, _, _, _, _, rfl⟩ := decodeEvent_ok_elim h
    simp [hw, decodeOptDefault]
  · intro w e hw h
    obtain ⟨ow, ot, _, _, rfl⟩ := decodeEventUpdate_ok_elim h
    simp [hw, decodeOptDefault]
  · intro w e hw h
    obtain ⟨ow, fp, ot, _, _, _, rfl⟩ := decodeAttachment_ok_elim h
    simp [hw, decodeOptDefault]

/-- Claim C9, witness: concrete wires with the key omitted decode to
instances carrying the literal defaults. -/
theorem claim9_external_source_id_defaults_witness :
    obsExample.external_source_id = some "None" ∧
    eventExample.external_source_id = some "none" ∧
    eventUpdateExample.external_source_id = some "none" ∧
    attachmentExample.external_source_id = some "none" :=
  ⟨claim9_external_source_id_defaults.1
     { dictObservation obsExample with external_source_id := .absent } obsExample
     rfl (by decide),
   claim9_external_source_id_defaults.2.1
     { dictEvent eventExample with external_source_id := .absent } eventExample
     rfl (by decide),
   claim9_external_source_id_defaults.2.2.1
     { dictEventUpdate eventUpdateExample with external_source_id := .absent }
     eventUpdateExample rfl (by decide),
   claim9_external_source_id_defaults.2.2.2.1
     { dictAttachment attachmentExample with external_source_id := .absent }
     attachmentExample rfl (by decide)⟩

/-- Claim C10: no `Event` with `recorded_at = None` is ever constructed —
every successfully decoded `Event` carries a datetime, and an input whose
`recorded_at` is `null` or missing never yields an instance (the validator
unconditionally reads `.tzinfo`). -/
theorem claim10_event_recorded_at_present :
    (∀ (w : EventWire) (e : Event), decodeEvent w = .ok e →
        e.recorded_at.isSome = true) ∧
    (∀ w : EventWire, w.recorded_at = .null → ∀ e, decodeEvent w ≠ .ok e) ∧
    (∀ w : EventWire, w.recorded_at = .absent → ∀ e, decodeEvent w ≠ .ok e) := by
  refine ⟨?_, ?_, ?_⟩
  · intro w e h
    obtain ⟨ow, ra, lo, ot, _, h2, _, _, rfl⟩ := decodeEvent_ok_elim h
    obtain ⟨dt, _, rfl⟩ := eventRecordedAt_ok h2
    rfl
  · intro w hw e h
    obtain ⟨ow, ra, lo, ot, _, h2, _, _, _⟩ := decodeEvent_ok_elim h
    rw [hw] at h2
    cases h2
  · intro w hw e h
    obtain ⟨ow, ra, lo, ot, _, h2, _, _, _⟩ := decodeEvent_ok_elim h
    rw [hw] at h2
    cases h2

/-- Claim C10, witness: at a concrete decoded `Event`, and at concrete wires
with `recorded_at` set to `null` / omitted. -/
theorem claim10_event_recorded_at_present_witness :
    eventExample.recorded_at.isSome = true ∧
    decodeEvent { dictEvent eventExample with recorded_at := .null } ≠
      .ok eventExample ∧
    decodeEvent { dictEvent eventExample with recorded_at := .absent } ≠
      .ok eventExample :=
  ⟨claim10_event_recorded_at_present.1 (dictEvent eventExample) eventExample
     (by decide),
   claim10_event_recorded_at_present.2.1
     { dictEvent eventExample with recorded_at := .null } rfl eventExample,
   claim10_event_recorded_at_present.2.2
     { dictEvent eventExample with recorded_at := .absent } rfl eventExample⟩

end Gundi
